import Mathlib

/-!
Verification development for the global configuration schema, defaulting and
validation engine (`global-config.ts` of landing-zone-accelerator-on-aws).

The file embeds, in order:
* the generic value tree produced by the external YAML/JSON deserializer;
* the type-descriptor combinator library (`common-types`), modelled from the
  spec because its source is not part of the analyzed sources;
* the schema registry `GlobalConfigTypes` translated from the source;
* the default-valued model (the `*Config` classes) and the parsed-values
  shape, translated from the source;
* the parse / construct / load / loadFromString operations;
* theorems settling the claims about these operations.
-/

/-- Generic value: the untyped tree produced by deserializing external
YAML/JSON (spec section 3): null, boolean, number, string, ordered list,
or mapping of string to generic value. -/
inductive GenericValue where
  | null : GenericValue
  | bool (b : Bool) : GenericValue
  | num (n : Int) : GenericValue
  | str (s : String) : GenericValue
  | arr (xs : List GenericValue) : GenericValue
  | map (kvs : List (String × GenericValue)) : GenericValue

/-- Looks up the value stored under a key in the field list of a generic
mapping value (first occurrence wins). -/
def lookupKey : List (String × GenericValue) → String → Option GenericValue
  | [], _ => none
  | (k, v) :: rest, key => if k == key then some v else lookupKey rest key

/-- Modelled from the spec: a field position inside an `Interface` descriptor
is either required (missing key is a violation) or `Optional` (absent or null
succeeds trivially, otherwise the inner descriptor runs). The source of the
descriptor library (`common-types.ts`) is not among the analyzed sources. -/
inductive FieldDescr where
  | required (check : GenericValue → List String)
  | optional (check : GenericValue → List String)

/-- Modelled from the spec: `Boolean` descriptor, succeeds iff the generic
value is a boolean. -/
def tBoolean : GenericValue → List String
  | .bool _ => []
  | _ => ["expected a boolean value"]

/-- Modelled from the spec: `Number` descriptor, succeeds iff the generic
value is a number. -/
def tNumber : GenericValue → List String
  | .num _ => []
  | _ => ["expected a number value"]

/-- Modelled from the spec: `String` descriptor, succeeds iff the generic
value is a string. -/
def tString : GenericValue → List String
  | .str _ => []
  | _ => ["expected a string value"]

/-- Modelled from the spec: `NonEmptyString` descriptor, additionally rejects
the empty string. -/
def tNonEmptyString : GenericValue → List String
  | .str s => if s.isEmpty then ["expected a non-empty string"] else []
  | _ => ["expected a string value"]

/-- Modelled from the spec: the fixed enumerable set of valid cloud region
identifiers backing the `Region` descriptor (`t.region` of `common-types`,
whose source is not among the analyzed sources). It contains every region
named by the spec and the source comments. -/
def regions : List String :=
  ["us-east-1", "us-east-2", "us-west-1", "us-west-2",
   "eu-west-1", "eu-west-2", "eu-west-3", "eu-central-1", "eu-north-1",
   "ap-northeast-1", "ap-southeast-1", "ap-southeast-2",
   "ca-central-1", "sa-east-1",
   "us-gov-west-1", "us-gov-east-1"]

/-- Modelled from the spec: `Region` descriptor, succeeds iff the string is a
member of the fixed supported-region set. -/
def tRegion : GenericValue → List String
  | .str s => if regions.contains s then [] else ["invalid region " ++ s]
  | _ => ["expected a region string"]

/-- Modelled from the spec: `Enum(name, allowed)` descriptor, succeeds iff the
string is a member of `allowed`; the violation names the enum and the value. -/
def tEnums (name : String) (allowed : List String) : GenericValue → List String
  | .str s => if allowed.contains s then [] else [name ++ ": invalid value " ++ s]
  | _ => [name ++ ": expected a string value"]

/-- Modelled from the spec: `Array(inner)` descriptor, requires a list value
and validates each element with `inner`, collecting all violations. -/
def tArray (inner : GenericValue → List String) : GenericValue → List String
  | .arr xs => xs.foldr (fun x acc => inner x ++ acc) []
  | _ => ["expected an array value"]

/-- Modelled from the spec: checking one declared interface field against the
field list of a mapping value. A missing key for a required descriptor is a
violation naming the field and the enclosing interface; an absent or null
value for an `Optional` descriptor succeeds trivially. -/
def checkField (iname : String) (kvs : List (String × GenericValue)) :
    String × FieldDescr → List String
  | (fname, .required check) =>
    match lookupKey kvs fname with
    | none => [iname ++ ": missing required field " ++ fname]
    | some g => check g
  | (fname, .optional check) =>
    match lookupKey kvs fname with
    | none => []
    | some .null => []
    | some g => check g

/-- Modelled from the spec: `Interface(name, fields)` descriptor, requires a
mapping value and checks every declared field, collecting all violations;
unknown keys in the input are ignored. -/
def tInterface (iname : String) (fields : List (String × FieldDescr)) :
    GenericValue → List String
  | .map kvs => fields.foldr (fun f acc => checkField iname kvs f ++ acc) []
  | _ => [iname ++ ": expected an object"]

/-- Schema registry entry `GlobalConfigTypes.controlTowerConfig`. -/
def GlobalConfigTypes.controlTowerConfig : GenericValue → List String :=
  tInterface "controlTowerConfig" [("enable", .required tBoolean)]

/-- Schema registry entry `GlobalConfigTypes.cloudtrailConfig`. -/
def GlobalConfigTypes.cloudtrailConfig : GenericValue → List String :=
  tInterface "cloudtrailConfig"
    [("enable", .required tBoolean),
     ("organizationTrail", .required tBoolean)]

/-- Schema registry entry `GlobalConfigTypes.sessionManagerConfig`. -/
def GlobalConfigTypes.sessionManagerConfig : GenericValue → List String :=
  tInterface "sessionManagerConfig"
    [("sendToCloudWatchLogs", .required tBoolean),
     ("sendToS3", .required tBoolean),
     ("excludeRegions", .optional (tArray tRegion)),
     ("excludeAccounts", .optional (tArray tString))]

/-- Schema registry entry `GlobalConfigTypes.loggingConfig`. -/
def GlobalConfigTypes.loggingConfig : GenericValue → List String :=
  tInterface "loggingConfig"
    [("account", .required tNonEmptyString),
     ("cloudtrail", .required GlobalConfigTypes.cloudtrailConfig),
     ("sessionManager", .required GlobalConfigTypes.sessionManagerConfig)]

/-- Schema registry entry `GlobalConfigTypes.identityPerimeterConfig`. -/
def GlobalConfigTypes.identityPerimeterConfig : GenericValue → List String :=
  tInterface "identityPerimeterConfig" [("enable", .required tBoolean)]

/-- Schema registry entry `GlobalConfigTypes.resourcePerimeterConfig`. -/
def GlobalConfigTypes.resourcePerimeterConfig : GenericValue → List String :=
  tInterface "resourcePerimeterConfig" [("enable", .required tBoolean)]

/-- Schema registry entry `GlobalConfigTypes.networkPerimeterConfig`. -/
def GlobalConfigTypes.networkPerimeterConfig : GenericValue → List String :=
  tInterface "networkPerimeterConfig" [("enable", .required tBoolean)]

/-- Schema registry entry `GlobalConfigTypes.dataProtectionConfig`. -/
def GlobalConfigTypes.dataProtectionConfig : GenericValue → List String :=
  tInterface "dataProtectionConfig"
    [("enable", .required tBoolean),
     ("identityPerimeter", .required GlobalConfigTypes.identityPerimeterConfig),
     ("resourcePerimeter", .required GlobalConfigTypes.resourcePerimeterConfig),
     ("networkPerimeter", .required GlobalConfigTypes.networkPerimeterConfig)]

/-- Schema registry entry `GlobalConfigTypes.artifactTypeEnum`. -/
def GlobalConfigTypes.artifactTypeEnum : GenericValue → List String :=
  tEnums "ArtifactType" ["REDSHIFT", "QUICKSIGHT", "ATHENA"]

/-- Schema registry entry `GlobalConfigTypes.costAndUsageReportConfig`. -/
def GlobalConfigTypes.costAndUsageReportConfig : GenericValue → List String :=
  tInterface "costAndUsageReportConfig"
    [("additionalSchemaElements", .optional (tArray tNonEmptyString)),
     ("compression", .required (tEnums "CompressionType" ["ZIP", "GZIP", "Parquet"])),
     ("format", .required (tEnums "FormatType" ["textORcsv", "Parquet"])),
     ("reportName", .required tNonEmptyString),
     ("s3Prefix", .required tNonEmptyString),
     ("timeUnit", .required (tEnums "TimeCoverageType" ["HOURLY", "DAILY", "MONTHLY"])),
     ("additionalArtifacts", .optional (tArray GlobalConfigTypes.artifactTypeEnum)),
     ("refreshClosedReports", .required tBoolean),
     ("reportVersioning", .required (tEnums "VersioningType" ["CREATE_NEW_REPORT", "OVERWRITE_REPORT"]))]

/-- Schema registry entry `GlobalConfigTypes.notificationConfig`. -/
def GlobalConfigTypes.notificationConfig : GenericValue → List String :=
  tInterface "notificationConfig"
    [("notificationType", .required (tEnums "NotificationType" ["ACTUAL", "FORECASTED"])),
     ("thresholdType", .required (tEnums "ThresholdType" ["PERCENTAGE", "ABSOLUTE_VALUE"])),
     ("comparisonOperator", .required (tEnums "ComparisonType" ["GREATER_THAN", "LESS_THAN", "EQUAL_TO"])),
     ("threshold", .optional tNumber)]

/-- Schema registry entry `GlobalConfigTypes.budgetsConfig`. -/
def GlobalConfigTypes.budgetsConfig : GenericValue → List String :=
  tInterface "budgetsConfig"
    [("amount", .required tNumber),
     ("budgetName", .required tNonEmptyString),
     ("budgetType", .required (tEnums "NotificationType"
        ["USAGE", "COST", "RI_UTILIZATION", "RI_COVERAGE",
         "SAVINGS_PLANS_UTILIZATION", "SAVINGS_PLANS_COVERAGE"])),
     ("timeUnit", .required (tEnums "TimeUnitType" ["DAILY", "MONTHLY", "QUARTERLY", "ANNUALLY"])),
     ("address", .optional tNonEmptyString),
     ("includeUpfront", .optional tBoolean),
     ("includeTax", .optional tBoolean),
     ("includeSupport", .optional tBoolean),
     ("includeSubscription", .optional tBoolean),
     ("includeRecurring", .optional tBoolean),
     ("includeOtherSubscription", .optional tBoolean),
     ("includeCredit", .optional tBoolean),
     ("includeDiscount", .optional tBoolean),
     ("includeRefund", .optional tBoolean),
     ("useAmortized", .optional tBoolean),
     ("useBlended", .optional tBoolean),
     ("notifications", .optional (tArray GlobalConfigTypes.notificationConfig)),
     ("subscriptionType", .required (tEnums "SubscriptionType" ["EMAIL", "SNS"])),
     ("unit", .optional tNonEmptyString)]

/-- Schema registry entry `GlobalConfigTypes.reportConfig`. -/
def GlobalConfigTypes.reportConfig : GenericValue → List String :=
  tInterface "reportConfig"
    [("costAndUsageReport", .optional GlobalConfigTypes.costAndUsageReportConfig),
     ("budgets", .optional GlobalConfigTypes.budgetsConfig)]

/-- Schema registry root entry `GlobalConfigTypes.globalConfig`. -/
def GlobalConfigTypes.globalConfig : GenericValue → List String :=
  tInterface "globalConfig"
    [("homeRegion", .required tNonEmptyString),
     ("enabledRegions", .required (tArray tRegion)),
     ("managementAccountAccessRole", .required tNonEmptyString),
     ("cloudwatchLogRetentionInDays", .required tNumber),
     ("controlTower", .required GlobalConfigTypes.controlTowerConfig),
     ("logging", .required GlobalConfigTypes.loggingConfig),
     ("dataProtection", .optional GlobalConfigTypes.dataProtectionConfig),
     ("reports", .optional GlobalConfigTypes.reportConfig)]

/-- AWS ControlTower configuration (`ControlTowerConfig` class): `enable`
defaults to `true`. The same shape is the typed value of
`GlobalConfigTypes.controlTowerConfig`. -/
structure ControlTowerConfig where
  enable : Bool := true
deriving DecidableEq

/-- AWS Cloudtrail configuration (`CloudtrailConfig` class): both flags
default to `false`. -/
structure CloudtrailConfig where
  enable : Bool := false
  organizationTrail : Bool := false
deriving DecidableEq

/-- AWS SessionManager configuration (`SessionManagerConfig` class): both
flags default to `false`, both exclusion lists default to the empty list; the
wire schema marks the lists optional, so the typed value carries them as
optional fields. -/
structure SessionManagerConfig where
  sendToCloudWatchLogs : Bool := false
  sendToS3 : Bool := false
  excludeRegions : Option (List String) := some []
  excludeAccounts : Option (List String) := some []
deriving DecidableEq

/-- Accelerator global logging configuration (`LoggingConfig` class):
`account` defaults to `"LogArchive"`, nested sections default to their
default-constructed objects. -/
structure LoggingConfig where
  account : String := "LogArchive"
  cloudtrail : CloudtrailConfig := {}
  sessionManager : SessionManagerConfig := {}
deriving DecidableEq

/-- IdentityPerimeter configuration (`IdentityPerimeterConfig` class). -/
structure IdentityPerimeterConfig where
  enable : Bool := false
deriving DecidableEq

/-- ResourcePerimeter configuration (`ResourcePerimeterConfig` class). -/
structure ResourcePerimeterConfig where
  enable : Bool := false
deriving DecidableEq

/-- NetworkPerimeter configuration (`NetworkPerimeterConfig` class). -/
structure NetworkPerimeterConfig where
  enable : Bool := false
deriving DecidableEq

/-- DataProtection configuration (`DataProtectionConfig` class). -/
structure DataProtectionConfig where
  enable : Bool := false
  identityPerimeter : IdentityPerimeterConfig := {}
  resourcePerimeter : ResourcePerimeterConfig := {}
  networkPerimeter : NetworkPerimeterConfig := {}
deriving DecidableEq

/-- CostAndUsageReport configuration (`CostAndUsageReportConfig` class); the
field defaults are the class initializers, the optional fields follow the
wire schema `costAndUsageReportConfig`. -/
structure CostAndUsageReportConfig where
  additionalSchemaElements : Option (List String) := some [""]
  compression : String := ""
  format : String := ""
  reportName : String := ""
  s3Prefix : String := ""
  timeUnit : String := ""
  additionalArtifacts : Option (List String) := none
  refreshClosedReports : Bool := true
  reportVersioning : String := ""
deriving DecidableEq

/-- One budget notification entry (element shape of
`GlobalConfigTypes.notificationConfig`). -/
structure NotificationConfig where
  notificationType : String := ""
  thresholdType : String := ""
  comparisonOperator : String := ""
  threshold : Option Int := none
deriving DecidableEq

/-- BudgetReport configuration (`BudgetReportConfig` class); the field
defaults are the class initializers, the optional fields follow the wire
schema `budgetsConfig`. -/
structure BudgetReportConfig where
  address : Option String := some ""
  amount : Int := 2000
  budgetName : String := ""
  timeUnit : String := ""
  budgetType : String := ""
  includeUpfront : Option Bool := some true
  includeTax : Option Bool := some true
  includeSupport : Option Bool := some true
  includeOtherSubscription : Option Bool := some true
  includeSubscription : Option Bool := some true
  includeRecurring : Option Bool := some true
  includeDiscount : Option Bool := some true
  includeRefund : Option Bool := some false
  includeCredit : Option Bool := some false
  useAmortized : Option Bool := some false
  useBlended : Option Bool := some false
  subscriptionType : String := ""
  unit : Option String := some ""
  notifications : Option (List NotificationConfig) :=
    some [{ notificationType := "", thresholdType := "",
            comparisonOperator := "", threshold := some 90 }]
deriving DecidableEq

/-- Accelerator report configuration (`ReportConfig` class); the wire schema
marks both sections optional. -/
structure ReportConfig where
  costAndUsageReport : Option CostAndUsageReportConfig := some {}
  budgets : Option BudgetReportConfig := some {}
deriving DecidableEq

/-- Typed value of the root schema `GlobalConfigTypes.globalConfig`
(`t.TypeOf<typeof GlobalConfigTypes.globalConfig>`): the parsed-values
object that the constructor may receive as its second argument. -/
structure GlobalConfigValues where
  homeRegion : String
  enabledRegions : List String
  managementAccountAccessRole : String
  cloudwatchLogRetentionInDays : Int
  controlTower : ControlTowerConfig
  logging : LoggingConfig
  dataProtection : Option DataProtectionConfig
  reports : Option ReportConfig
deriving DecidableEq

/-- Accelerator global configuration (`GlobalConfig` class). The field
initializers are the documented defaults: `homeRegion` and `enabledRegions`
have no default and always come from the construction parameter. -/
structure GlobalConfig where
  homeRegion : String
  enabledRegions : List String
  managementAccountAccessRole : String := "AWSControlTowerExecution"
  cloudwatchLogRetentionInDays : Int := 365
  controlTower : ControlTowerConfig := {}
  logging : LoggingConfig := {}
  dataProtection : Option DataProtectionConfig := none
  reports : Option ReportConfig := none
deriving DecidableEq

/-- Extracts a boolean from a generic value. -/
def GenericValue.asBool : GenericValue → Option Bool
  | .bool b => some b
  | _ => none

/-- Extracts a number from a generic value. -/
def GenericValue.asNum : GenericValue → Option Int
  | .num n => some n
  | _ => none

/-- Extracts a string from a generic value. -/
def GenericValue.asStr : GenericValue → Option String
  | .str s => some s
  | _ => none

/-- Extracts a list of strings from a generic array value. -/
def decodeStrList : GenericValue → Option (List String)
  | .arr xs => xs.mapM GenericValue.asStr
  | _ => none

/-- Decodes a required interface field: the key must be present and its value
must decode. -/
def decodeReqField (kvs : List (String × GenericValue)) (key : String)
    (dec : GenericValue → Option α) : Option α :=
  match lookupKey kvs key with
  | none => none
  | some g => dec g

/-- Decodes an optional interface field: an absent or null key decodes to an
absent typed value. -/
def decodeOptField (kvs : List (String × GenericValue)) (key : String)
    (dec : GenericValue → Option α) : Option (Option α) :=
  match lookupKey kvs key with
  | none => some none
  | some .null => some none
  | some g => (dec g).map some

/-- Decodes a `controlTowerConfig` value. -/
def decodeControlTower : GenericValue → Option ControlTowerConfig
  | .map kvs => do
    let enable ← decodeReqField kvs "enable" GenericValue.asBool
    some { enable }
  | _ => none

/-- Decodes a `cloudtrailConfig` value. -/
def decodeCloudtrail : GenericValue → Option CloudtrailConfig
  | .map kvs => do
    let enable ← decodeReqField kvs "enable" GenericValue.asBool
    let organizationTrail ← decodeReqField kvs "organizationTrail" GenericValue.asBool
    some { enable, organizationTrail }
  | _ => none

/-- Decodes a `sessionManagerConfig` value. -/
def decodeSessionManager : GenericValue → Option SessionManagerConfig
  | .map kvs => do
    let sendToCloudWatchLogs ← decodeReqField kvs "sendToCloudWatchLogs" GenericValue.asBool
    let sendToS3 ← decodeReqField kvs "sendToS3" GenericValue.asBool
    let excludeRegions ← decodeOptField kvs "excludeRegions" decodeStrList
    let excludeAccounts ← decodeOptField kvs "excludeAccounts" decodeStrList
    some { sendToCloudWatchLogs, sendToS3, excludeRegions, excludeAccounts }
  | _ => none

/-- Decodes a `loggingConfig` value. -/
def decodeLogging : GenericValue → Option LoggingConfig
  | .map kvs => do
    let account ← decodeReqField kvs "account" GenericValue.asStr
    let cloudtrail ← decodeReqField kvs "cloudtrail" decodeCloudtrail
    let sessionManager ← decodeReqField kvs "sessionManager" decodeSessionManager
    some { account, cloudtrail, sessionManager }
  | _ => none

/-- Decodes an `identityPerimeterConfig` value. -/
def decodeIdentityPerimeter : GenericValue → Option IdentityPerimeterConfig
  | .map kvs => do
    let enable ← decodeReqField kvs "enable" GenericValue.asBool
    some { enable }
  | _ => none

/-- Decodes a `resourcePerimeterConfig` value. -/
def decodeResourcePerimeter : GenericValue → Option ResourcePerimeterConfig
  | .map kvs => do
    let enable ← decodeReqField kvs "enable" GenericValue.asBool
    some { enable }
  | _ => none

/-- Decodes a `networkPerimeterConfig` value. -/
def decodeNetworkPerimeter : GenericValue → Option NetworkPerimeterConfig
  | .map kvs => do
    let enable ← decodeReqField kvs "enable" GenericValue.asBool
    some { enable }
  | _ => none

/-- Decodes a `dataProtectionConfig` value. -/
def decodeDataProtection : GenericValue → Option DataProtectionConfig
  | .map kvs => do
    let enable ← decodeReqField kvs "enable" GenericValue.asBool
    let identityPerimeter ← decodeReqField kvs "identityPerimeter" decodeIdentityPerimeter
    let resourcePerimeter ← decodeReqField kvs "resourcePerimeter" decodeResourcePerimeter
    let networkPerimeter ← decodeReqField kvs "networkPerimeter" decodeNetworkPerimeter
    some { enable, identityPerimeter, resourcePerimeter, networkPerimeter }
  | _ => none

/-- Decodes a `costAndUsageReportConfig` value. -/
def decodeCostAndUsageReport : GenericValue → Option CostAndUsageReportConfig
  | .map kvs => do
    let additionalSchemaElements ← decodeOptField kvs "additionalSchemaElements" decodeStrList
    let compression ← decodeReqField kvs "compression" GenericValue.asStr
    let format ← decodeReqField kvs "format" GenericValue.asStr
    let reportName ← decodeReqField kvs "reportName" GenericValue.asStr
    let s3Prefix ← decodeReqField kvs "s3Prefix" GenericValue.asStr
    let timeUnit ← decodeReqField kvs "timeUnit" GenericValue.asStr
    let additionalArtifacts ← decodeOptField kvs "additionalArtifacts" decodeStrList
    let refreshClosedReports ← decodeReqField kvs "refreshClosedReports" GenericValue.asBool
    let reportVersioning ← decodeReqField kvs "reportVersioning" GenericValue.asStr
    some { additionalSchemaElements, compression, format, reportName, s3Prefix,
           timeUnit, additionalArtifacts, refreshClosedReports, reportVersioning }
  | _ => none

/-- Decodes a `notificationConfig` value. -/
def decodeNotification : GenericValue → Option NotificationConfig
  | .map kvs => do
    let notificationType ← decodeReqField kvs "notificationType" GenericValue.asStr
    let thresholdType ← decodeReqField kvs "thresholdType" GenericValue.asStr
    let comparisonOperator ← decodeReqField kvs "comparisonOperator" GenericValue.asStr
    let threshold ← decodeOptField kvs "threshold" GenericValue.asNum
    some { notificationType, thresholdType, comparisonOperator, threshold }
  | _ => none

/-- Decodes a list of `notificationConfig` values. -/
def decodeNotificationList : GenericValue → Option (List NotificationConfig)
  | .arr xs => xs.mapM decodeNotification
  | _ => none

/-- Required fields of a `budgetsConfig` value together with `address` and
`unit` (decoding helper, split to keep each decoder small). -/
structure BudgetCore where
  amount : Int
  budgetName : String
  budgetType : String
  timeUnit : String
  subscriptionType : String
  address : Option String
  unit : Option String
deriving DecidableEq

/-- Decodes the required fields of a `budgetsConfig` value together with
`address` and `unit`. -/
def decodeBudgetsCore (kvs : List (String × GenericValue)) : Option BudgetCore := do
  let amount ← decodeReqField kvs "amount" GenericValue.asNum
  let budgetName ← decodeReqField kvs "budgetName" GenericValue.asStr
  let budgetType ← decodeReqField kvs "budgetType" GenericValue.asStr
  let timeUnit ← decodeReqField kvs "timeUnit" GenericValue.asStr
  let subscriptionType ← decodeReqField kvs "subscriptionType" GenericValue.asStr
  let address ← decodeOptField kvs "address" GenericValue.asStr
  let unit ← decodeOptField kvs "unit" GenericValue.asStr
  some { amount, budgetName, budgetType, timeUnit, subscriptionType, address, unit }

/-- Cost-inclusion flags of a `budgetsConfig` value (decoding helper). -/
structure BudgetInclude where
  includeUpfront : Option Bool
  includeTax : Option Bool
  includeSupport : Option Bool
  includeSubscription : Option Bool
  includeRecurring : Option Bool
  includeOtherSubscription : Option Bool
deriving DecidableEq

/-- Decodes the cost-inclusion flags of a `budgetsConfig` value. -/
def decodeBudgetsInclude (kvs : List (String × GenericValue)) : Option BudgetInclude := do
  let includeUpfront ← decodeOptField kvs "includeUpfront" GenericValue.asBool
  let includeTax ← decodeOptField kvs "includeTax" GenericValue.asBool
  let includeSupport ← decodeOptField kvs "includeSupport" GenericValue.asBool
  let includeSubscription ← decodeOptField kvs "includeSubscription" GenericValue.asBool
  let includeRecurring ← decodeOptField kvs "includeRecurring" GenericValue.asBool
  let includeOtherSubscription ← decodeOptField kvs "includeOtherSubscription" GenericValue.asBool
  some { includeUpfront, includeTax, includeSupport, includeSubscription,
         includeRecurring, includeOtherSubscription }

/-- Remaining optional fields of a `budgetsConfig` value (decoding helper). -/
structure BudgetRates where
  includeCredit : Option Bool
  includeDiscount : Option Bool
  includeRefund : Option Bool
  useAmortized : Option Bool
  useBlended : Option Bool
  notifications : Option (List NotificationConfig)
deriving DecidableEq

/-- Decodes the remaining optional fields of a `budgetsConfig` value. -/
def decodeBudgetsRates (kvs : List (String × GenericValue)) : Option BudgetRates := do
  let includeCredit ← decodeOptField kvs "includeCredit" GenericValue.asBool
  let includeDiscount ← decodeOptField kvs "includeDiscount" GenericValue.asBool
  let includeRefund ← decodeOptField kvs "includeRefund" GenericValue.asBool
  let useAmortized ← decodeOptField kvs "useAmortized" GenericValue.asBool
  let useBlended ← decodeOptField kvs "useBlended" GenericValue.asBool
  let notifications ← decodeOptField kvs "notifications" decodeNotificationList
  some { includeCredit, includeDiscount, includeRefund, useAmortized,
         useBlended, notifications }

/-- Decodes a `budgetsConfig` value. -/
def decodeBudgets : GenericValue → Option BudgetReportConfig
  | .map kvs => do
    let core ← decodeBudgetsCore kvs
    let inc ← decodeBudgetsInclude kvs
    let rates ← decodeBudgetsRates kvs
    some { amount := core.amount, budgetName := core.budgetName,
           budgetType := core.budgetType, timeUnit := core.timeUnit,
           subscriptionType := core.subscriptionType, address := core.address,
           unit := core.unit,
           includeUpfront := inc.includeUpfront, includeTax := inc.includeTax,
           includeSupport := inc.includeSupport,
           includeSubscription := inc.includeSubscription,
           includeRecurring := inc.includeRecurring,
           includeOtherSubscription := inc.includeOtherSubscription,
           includeCredit := rates.includeCredit,
           includeDiscount := rates.includeDiscount,
           includeRefund := rates.includeRefund,
           useAmortized := rates.useAmortized, useBlended := rates.useBlended,
           notifications := rates.notifications }
  | _ => none

/-- Decodes a `reportConfig` value. -/
def decodeReport : GenericValue → Option ReportConfig
  | .map kvs => do
    let costAndUsageReport ← decodeOptField kvs "costAndUsageReport" decodeCostAndUsageReport
    let budgets ← decodeOptField kvs "budgets" decodeBudgets
    some { costAndUsageReport, budgets }
  | _ => none

/-- Decodes a root `globalConfig` value into the parsed-values object. -/
def decodeGlobalConfig : GenericValue → Option GlobalConfigValues
  | .map kvs => do
    let homeRegion ← decodeReqField kvs "homeRegion" GenericValue.asStr
    let enabledRegions ← decodeReqField kvs "enabledRegions" decodeStrList
    let managementAccountAccessRole ← decodeReqField kvs "managementAccountAccessRole" GenericValue.asStr
    let cloudwatchLogRetentionInDays ← decodeReqField kvs "cloudwatchLogRetentionInDays" GenericValue.asNum
    let controlTower ← decodeReqField kvs "controlTower" decodeControlTower
    let logging ← decodeReqField kvs "logging" decodeLogging
    let dataProtection ← decodeOptField kvs "dataProtection" decodeDataProtection
    let reports ← decodeOptField kvs "reports" decodeReport
    some { homeRegion, enabledRegions, managementAccountAccessRole,
           cloudwatchLogRetentionInDays, controlTower, logging,
           dataProtection, reports }
  | _ => none

/-- Modelled from the spec: `t.parse(schema, genericValue)` of `common-types`
(not among the analyzed sources) validates the full tree against the root
schema, fails with a `SchemaValidationError` aggregating every violation
found, and otherwise yields the typed value. -/
def parse (g : GenericValue) : Except String GlobalConfigValues :=
  let errs := GlobalConfigTypes.globalConfig g
  if errs.length != 0 then
    .error ("SchemaValidationError: " ++ String.intercalate "; " errs)
  else
    match decodeGlobalConfig g with
    | some v => .ok v
    | none => .error "SchemaValidationError: malformed document"

/-- Global configuration file name (`GlobalConfig.FILENAME`): this file must
be present in the accelerator config repository. -/
def GlobalConfig.FILENAME : String := "global-config.yaml"

/-- The required construction parameter of `GlobalConfig` (the `props`
argument of the constructor). -/
structure GlobalConfigProps where
  homeRegion : String
deriving DecidableEq

/-- Semantic validation errors collected by the `GlobalConfig` constructor.
The checks run only when the optional parsed-values object was supplied (its
`homeRegion` and `cloudwatchLogRetentionInDays` are then defined, being
required fields of the parsed shape). In the GovCloud partition the home
region must be `us-gov-west-1`; in the commercial partition a home region
other than `us-east-1` requires `us-east-1` among the enabled regions. -/
def validationErrors : Option GlobalConfigValues → List String
  | none => []
  | some v =>
    if v.homeRegion == "us-gov-west-1" || v.homeRegion == "us-gov-east-1" then
      if v.homeRegion != "us-gov-west-1" then
        ["The region us-gov-west-1 must be the home region."]
      else []
    else
      if v.homeRegion != "us-east-1" && !(v.enabledRegions.contains "us-east-1") then
        ["The region us-east-1 must be included in the list of enabled regions"]
      else []

/-- The `GlobalConfig` constructor: overlays the optional parsed values onto
the defaults (a shallow field-by-field copy), then overwrites `homeRegion`
with the construction parameter and `enabledRegions` with the one-element
list holding it, then runs the semantic validation; a non-empty error list
makes construction throw one aggregated error. -/
def GlobalConfig.construct (props : GlobalConfigProps)
    (values : Option GlobalConfigValues) : Except String GlobalConfig :=
  let assigned : GlobalConfig :=
    match values with
    | none => { homeRegion := props.homeRegion, enabledRegions := [props.homeRegion] }
    | some v =>
      { homeRegion := props.homeRegion,
        enabledRegions := [props.homeRegion],
        managementAccountAccessRole := v.managementAccountAccessRole,
        cloudwatchLogRetentionInDays := v.cloudwatchLogRetentionInDays,
        controlTower := v.controlTower,
        logging := v.logging,
        dataProtection := v.dataProtection,
        reports := v.reports }
  let errors := validationErrors values
  if errors.length != 0 then
    .error (GlobalConfig.FILENAME ++ " has " ++ toString errors.length ++
      " issues: " ++ String.intercalate " " errors)
  else
    .ok assigned

/-- Raw content handed to the YAML deserializer: either syntactically invalid
or a deserialized generic tree. -/
inductive RawInput where
  | malformed : RawInput
  | parsed (g : GenericValue) : RawInput

/-- Modelled from the spec: the external YAML/JSON deserializer
(`yaml.load`), which returns a generic value or fails with a syntax error;
it is an external collaborator whose source is not among the analyzed
sources. -/
def yamlLoad : RawInput → Except String GenericValue
  | .malformed => .error "YAMLException: unable to parse content"
  | .parsed g => .ok g

/-- A file-based configuration source: the file is missing or unreadable, or
it holds raw content. -/
inductive FileSource where
  | missing : FileSource
  | content (raw : RawInput) : FileSource

/-- Modelled from the spec: the filesystem collaborator (`fs.readFileSync`),
which yields the raw bytes of `global-config.yaml` or fails with an I/O
error when the file is absent or unreadable. -/
def readFileSync : FileSource → Except String RawInput
  | .missing => .error "ENOENT: no such file or directory global-config.yaml"
  | .content raw => .ok raw

/-- Load from file in a given directory (`GlobalConfig.load`): reads the
file, deserializes, parses against the root schema, and constructs, passing
the parsed values both as props (its `homeRegion`) and as the values
argument; every failure propagates to the caller. -/
def GlobalConfig.load (file : FileSource) : Except String GlobalConfig :=
  match readFileSync file with
  | .error e => .error e
  | .ok raw =>
    match yamlLoad raw with
    | .error e => .error e
    | .ok g =>
      match parse g with
      | .error e => .error e
      | .ok values =>
        GlobalConfig.construct { homeRegion := values.homeRegion } (some values)

/-- The body of the `try` block of `GlobalConfig.loadFromString`:
deserializes and parses the content, then constructs a `GlobalConfig`
passing the parsed values object as the constructor's props argument only —
the constructor's own values argument stays omitted. -/
def stringPipeline (input : RawInput) : Except String GlobalConfig :=
  match yamlLoad input with
  | .error e => .error e
  | .ok g =>
    match parse g with
    | .error e => .error e
    | .ok values =>
      GlobalConfig.construct { homeRegion := values.homeRegion } none

/-- Load from string content (`GlobalConfig.loadFromString`): any failure of
the pipeline is caught, logged, and turned into an absent result. -/
def GlobalConfig.loadFromString (input : RawInput) : Option GlobalConfig :=
  match stringPipeline input with
  | .ok config => some config
  | .error _ => none

/-- Boolean success observer for `Except` results. -/
def exceptOk : Except String α → Bool
  | .ok _ => true
  | .error _ => false

/-- Serializes an optional value, writing null (undefined) when absent. -/
def optGeneric (f : α → GenericValue) : Option α → GenericValue
  | none => .null
  | some a => f a

/-- Serializes a list of strings as a generic array. -/
def strListGeneric (xs : List String) : GenericValue :=
  .arr (xs.map GenericValue.str)

/-- Serializes a `ControlTowerConfig` back into a generic value. -/
def ControlTowerConfig.toGeneric (c : ControlTowerConfig) : GenericValue :=
  .map [("enable", .bool c.enable)]

/-- Serializes a `CloudtrailConfig` back into a generic value. -/
def CloudtrailConfig.toGeneric (c : CloudtrailConfig) : GenericValue :=
  .map [("enable", .bool c.enable),
        ("organizationTrail", .bool c.organizationTrail)]

/-- Serializes a `SessionManagerConfig` back into a generic value. -/
def SessionManagerConfig.toGeneric (c : SessionManagerConfig) : GenericValue :=
  .map [("sendToCloudWatchLogs", .bool c.sendToCloudWatchLogs),
        ("sendToS3", .bool c.sendToS3),
        ("excludeRegions", optGeneric strListGeneric c.excludeRegions),
        ("excludeAccounts", optGeneric strListGeneric c.excludeAccounts)]

/-- Serializes a `LoggingConfig` back into a generic value. -/
def LoggingConfig.toGeneric (c : LoggingConfig) : GenericValue :=
  .map [("account", .str c.account),
        ("cloudtrail", c.cloudtrail.toGeneric),
        ("sessionManager", c.sessionManager.toGeneric)]

/-- Serializes an `IdentityPerimeterConfig` back into a generic value. -/
def IdentityPerimeterConfig.toGeneric (c : IdentityPerimeterConfig) : GenericValue :=
  .map [("enable", .bool c.enable)]

/-- Serializes a `ResourcePerimeterConfig` back into a generic value. -/
def ResourcePerimeterConfig.toGeneric (c : ResourcePerimeterConfig) : GenericValue :=
  .map [("enable", .bool c.enable)]

/-- Serializes a `NetworkPerimeterConfig` back into a generic value. -/
def NetworkPerimeterConfig.toGeneric (c : NetworkPerimeterConfig) : GenericValue :=
  .map [("enable", .bool c.enable)]

/-- Serializes a `DataProtectionConfig` back into a generic value. -/
def DataProtectionConfig.toGeneric (c : DataProtectionConfig) : GenericValue :=
  .map [("enable", .bool c.enable),
        ("identityPerimeter", c.identityPerimeter.toGeneric),
        ("resourcePerimeter", c.resourcePerimeter.toGeneric),
        ("networkPerimeter", c.networkPerimeter.toGeneric)]

/-- Serializes a `CostAndUsageReportConfig` back into a generic value. -/
def CostAndUsageReportConfig.toGeneric (c : CostAndUsageReportConfig) : GenericValue :=
  .map [("additionalSchemaElements", optGeneric strListGeneric c.additionalSchemaElements),
        ("compression", .str c.compression),
        ("format", .str c.format),
        ("reportName", .str c.reportName),
        ("s3Prefix", .str c.s3Prefix),
        ("timeUnit", .str c.timeUnit),
        ("additionalArtifacts", optGeneric strListGeneric c.additionalArtifacts),
        ("refreshClosedReports", .bool c.refreshClosedReports),
        ("reportVersioning", .str c.reportVersioning)]

/-- Serializes a `NotificationConfig` back into a generic value. -/
def NotificationConfig.toGeneric (c : NotificationConfig) : GenericValue :=
  .map [("notificationType", .str c.notificationType),
        ("thresholdType", .str c.thresholdType),
        ("comparisonOperator", .str c.comparisonOperator),
        ("threshold", optGeneric GenericValue.num c.threshold)]

/-- Serializes a `BudgetReportConfig` back into a generic value. -/
def BudgetReportConfig.toGeneric (c : BudgetReportConfig) : GenericValue :=
  .map [("amount", .num c.amount),
        ("budgetName", .str c.budgetName),
        ("budgetType", .str c.budgetType),
        ("timeUnit", .str c.timeUnit),
        ("address", optGeneric GenericValue.str c.address),
        ("includeUpfront", optGeneric GenericValue.bool c.includeUpfront),
        ("includeTax", optGeneric GenericValue.bool c.includeTax),
        ("includeSupport", optGeneric GenericValue.bool c.includeSupport),
        ("includeSubscription", optGeneric GenericValue.bool c.includeSubscription),
        ("includeRecurring", optGeneric GenericValue.bool c.includeRecurring),
        ("includeOtherSubscription", optGeneric GenericValue.bool c.includeOtherSubscription),
        ("includeCredit", optGeneric GenericValue.bool c.includeCredit),
        ("includeDiscount", optGeneric GenericValue.bool c.includeDiscount),
        ("includeRefund", optGeneric GenericValue.bool c.includeRefund),
        ("useAmortized", optGeneric GenericValue.bool c.useAmortized),
        ("useBlended", optGeneric GenericValue.bool c.useBlended),
        ("notifications",
          optGeneric (fun ns => .arr (ns.map NotificationConfig.toGeneric)) c.notifications),
        ("subscriptionType", .str c.subscriptionType),
        ("unit", optGeneric GenericValue.str c.unit)]

/-- Serializes a `ReportConfig` back into a generic value. -/
def ReportConfig.toGeneric (c : ReportConfig) : GenericValue :=
  .map [("costAndUsageReport", optGeneric CostAndUsageReportConfig.toGeneric c.costAndUsageReport),
        ("budgets", optGeneric BudgetReportConfig.toGeneric c.budgets)]

/-- Serializes a `GlobalConfig` object back into a generic value, for
re-validating the constructed object against the root schema. -/
def GlobalConfig.toGeneric (c : GlobalConfig) : GenericValue :=
  .map [("homeRegion", .str c.homeRegion),
        ("enabledRegions", strListGeneric c.enabledRegions),
        ("managementAccountAccessRole", .str c.managementAccountAccessRole),
        ("cloudwatchLogRetentionInDays", .num c.cloudwatchLogRetentionInDays),
        ("controlTower", c.controlTower.toGeneric),
        ("logging", c.logging.toGeneric),
        ("dataProtection", optGeneric DataProtectionConfig.toGeneric c.dataProtection),
        ("reports", optGeneric ReportConfig.toGeneric c.reports)]

/-- The default-only `GlobalConfig` for a given home region: the object the
constructor yields when no parsed-values object is supplied. -/
def defaultGlobalConfig (homeRegion : String) : GlobalConfig :=
  { homeRegion, enabledRegions := [homeRegion] }

/-- A structurally valid generic document with home region `eu-west-1`,
enabled regions `[eu-west-1]`, log retention `90`, and all remaining
required fields present and valid. -/
def euWestContent : GenericValue :=
  .map [("homeRegion", .str "eu-west-1"),
        ("enabledRegions", .arr [.str "eu-west-1"]),
        ("managementAccountAccessRole", .str "AWSControlTowerExecution"),
        ("cloudwatchLogRetentionInDays", .num 90),
        ("controlTower", .map [("enable", .bool true)]),
        ("logging",
          .map [("account", .str "LogArchive"),
                ("cloudtrail",
                  .map [("enable", .bool false),
                        ("organizationTrail", .bool false)]),
                ("sessionManager",
                  .map [("sendToCloudWatchLogs", .bool false),
                        ("sendToS3", .bool false)])])]

/-- The parsed-values object that `euWestContent` decodes to. -/
def euWestValues : GlobalConfigValues :=
  { homeRegion := "eu-west-1",
    enabledRegions := ["eu-west-1"],
    managementAccountAccessRole := "AWSControlTowerExecution",
    cloudwatchLogRetentionInDays := 90,
    controlTower := { enable := true },
    logging :=
      { account := "LogArchive",
        cloudtrail := { enable := false, organizationTrail := false },
        sessionManager :=
          { sendToCloudWatchLogs := false, sendToS3 := false,
            excludeRegions := none, excludeAccounts := none } },
    dataProtection := none,
    reports := none }

deriving instance DecidableEq for Except

/-- Parsed values with GovCloud home region `us-gov-west-1` and an enabled
regions list that does not even contain the home region. -/
def govWestValues : GlobalConfigValues :=
  { euWestValues with homeRegion := "us-gov-west-1", enabledRegions := [] }

/-- Props carrying home region `us-gov-west-1`. -/
def govWestProps : GlobalConfigProps := { homeRegion := "us-gov-west-1" }

/-- Parsed values with home region `us-east-1` and two enabled regions. -/
def usEastValues : GlobalConfigValues :=
  { euWestValues with homeRegion := "us-east-1",
                      enabledRegions := ["us-east-1", "us-west-2"] }

/-- Props carrying home region `us-east-1`. -/
def usEastProps : GlobalConfigProps := { homeRegion := "us-east-1" }

/-- C8: constructing a `GlobalConfig` with only the required `homeRegion`
construction parameter and no parsed-values object yields the documented
defaults: `managementAccountAccessRole = "AWSControlTowerExecution"`,
`cloudwatchLogRetentionInDays = 365`, `controlTower.enable = true`,
`logging.account = "LogArchive"`, `logging.cloudtrail.enable = false`,
`logging.cloudtrail.organizationTrail = false`,
`logging.sessionManager.sendToCloudWatchLogs = false`,
`logging.sessionManager.sendToS3 = false`, and `dataProtection` and
`reports` absent. -/
theorem construct_defaults_only (p : GlobalConfigProps) :
    GlobalConfig.construct p none =
      .ok { homeRegion := p.homeRegion,
            enabledRegions := [p.homeRegion],
            managementAccountAccessRole := "AWSControlTowerExecution",
            cloudwatchLogRetentionInDays := 365,
            controlTower := { enable := true },
            logging :=
              { account := "LogArchive",
                cloudtrail := { enable := false, organizationTrail := false },
                sessionManager :=
                  { sendToCloudWatchLogs := false, sendToS3 := false,
                    excludeRegions := some [], excludeAccounts := some [] } },
            dataProtection := none,
            reports := none } := rfl

/-- C3 counterexample: on the structurally valid content with home region
`eu-west-1`, enabled regions `[eu-west-1]` and log retention `90`,
`loadFromString` does not return an absent result. -/
theorem loadFromString_euWest_not_absent :
    (GlobalConfig.loadFromString (.parsed euWestContent)).isSome = true := by
  decide

/-- C3 amended: `loadFromString` on that content succeeds, returning the
config whose `homeRegion` is `eu-west-1`, whose `enabledRegions` is
`[eu-west-1]` and whose other fields are the defaults, because the parsed
values are passed only as the constructor's props argument and the semantic
validation is skipped; the file-based `load` on the same content does fail
with the single semantic violation requiring `us-east-1` among the enabled
regions. -/
theorem loadFromString_euWest_succeeds_without_semantic_check :
    GlobalConfig.loadFromString (.parsed euWestContent) =
      some (defaultGlobalConfig "eu-west-1") ∧
    GlobalConfig.load (.content (.parsed euWestContent)) =
      .error "global-config.yaml has 1 issues: The region us-east-1 must be included in the list of enabled regions" := by
  constructor
  · decide
  · decide

/-- C9: whenever the semantic validation finds at least one violated rule,
construction throws exactly one aggregated error carrying the fixed config
filename `global-config.yaml`, the total issue count, and every individual
violation message, and no config object is produced. -/
theorem construct_aggregated_error (p : GlobalConfigProps)
    (v : GlobalConfigValues) (h : validationErrors (some v) ≠ []) :
    GlobalConfig.construct p (some v) =
      .error ("global-config.yaml has " ++
        toString (validationErrors (some v)).length ++ " issues: " ++
        String.intercalate " " (validationErrors (some v))) := by
  have hn : (validationErrors (some v)).length ≠ 0 := by
    simpa [List.length_eq_zero] using h
  simp [GlobalConfig.construct, GlobalConfig.FILENAME, bne_iff_ne, hn]

/-- C9 witness: at the `eu-west-1` parsed values the semantic validation
finds one violation, and construction throws the aggregated error. -/
theorem construct_aggregated_error_witness :
    validationErrors (some euWestValues) ≠ [] ∧
    GlobalConfig.construct usEastProps (some euWestValues) =
      .error ("global-config.yaml has " ++
        toString (validationErrors (some euWestValues)).length ++ " issues: " ++
        String.intercalate " " (validationErrors (some euWestValues))) :=
  ⟨by decide, construct_aggregated_error usEastProps euWestValues (by decide)⟩

/-- C10: for every home region drawn from the valid region set, the
default-only `GlobalConfig` is produced successfully and re-validating its
serialization against the root `globalConfig` schema yields no structural
violations. -/
theorem default_config_schema_valid (r : String) (h : r ∈ regions) :
    GlobalConfig.construct { homeRegion := r } none = .ok (defaultGlobalConfig r) ∧
    GlobalConfigTypes.globalConfig (GlobalConfig.toGeneric (defaultGlobalConfig r)) = [] := by
  refine ⟨rfl, ?_⟩
  fin_cases h <;> decide

/-- C10 witness: the default-only config for home region `us-east-1` is
schema-valid. -/
theorem default_config_schema_valid_witness :
    "us-east-1" ∈ regions ∧
    (GlobalConfig.construct { homeRegion := "us-east-1" } none =
      .ok (defaultGlobalConfig "us-east-1") ∧
    GlobalConfigTypes.globalConfig (GlobalConfig.toGeneric (defaultGlobalConfig "us-east-1")) = []) :=
  ⟨by decide, default_config_schema_valid "us-east-1" (by decide)⟩

/-- C1: when a parsed-values object is supplied and its home region is one
of the two GovCloud regions, construction succeeds exactly when that home
region is `us-gov-west-1` (in particular, regardless of the contents of
`enabledRegions`), and with `us-gov-east-1` it throws the GovCloud
home-region violation. -/
theorem construct_govcloud_home_region_rule (p : GlobalConfigProps)
    (v : GlobalConfigValues)
    (h : v.homeRegion = "us-gov-west-1" ∨ v.homeRegion = "us-gov-east-1") :
    (exceptOk (GlobalConfig.construct p (some v)) = true ↔
      v.homeRegion = "us-gov-west-1") ∧
    (v.homeRegion = "us-gov-east-1" →
      GlobalConfig.construct p (some v) =
        .error "global-config.yaml has 1 issues: The region us-gov-west-1 must be the home region.") := by
  rcases h with h | h
  · refine ⟨by simp [GlobalConfig.construct, validationErrors, h, exceptOk], ?_⟩
    intro h2
    rw [h] at h2
    exact absurd h2 (by decide)
  · refine ⟨?_, ?_⟩
    · simp [GlobalConfig.construct, validationErrors, h, exceptOk, GlobalConfig.FILENAME]
    · intro _
      simp +decide [GlobalConfig.construct, validationErrors, h, GlobalConfig.FILENAME]

/-- C1 witness: with home region `us-gov-west-1` and an empty enabled
regions list, construction succeeds. -/
theorem construct_govcloud_home_region_rule_witness :
    (govWestValues.homeRegion = "us-gov-west-1" ∨
      govWestValues.homeRegion = "us-gov-east-1") ∧
    ((exceptOk (GlobalConfig.construct govWestProps (some govWestValues)) = true ↔
      govWestValues.homeRegion = "us-gov-west-1") ∧
    (govWestValues.homeRegion = "us-gov-east-1" →
      GlobalConfig.construct govWestProps (some govWestValues) =
        .error "global-config.yaml has 1 issues: The region us-gov-west-1 must be the home region.")) :=
  ⟨Or.inl (by decide),
    construct_govcloud_home_region_rule govWestProps govWestValues (Or.inl (by decide))⟩

/-- C2: when a parsed-values object with a commercial-partition home region
is supplied, construction fails exactly when the home region is not
`us-east-1` and `us-east-1` is not among the parsed enabled regions; adding
`us-east-1` to the parsed enabled regions, all else equal, makes
construction succeed. -/
theorem construct_commercial_us_east_1_rule (p : GlobalConfigProps)
    (v : GlobalConfigValues)
    (h1 : v.homeRegion ≠ "us-gov-west-1") (h2 : v.homeRegion ≠ "us-gov-east-1") :
    (exceptOk (GlobalConfig.construct p (some v)) = false ↔
      (v.homeRegion ≠ "us-east-1" ∧ "us-east-1" ∉ v.enabledRegions)) ∧
    exceptOk (GlobalConfig.construct p
      (some { v with enabledRegions := v.enabledRegions ++ ["us-east-1"] })) = true := by
  constructor
  · by_cases hc : v.homeRegion = "us-east-1"
    · simp [GlobalConfig.construct, validationErrors, h1, h2, hc, exceptOk]
    · by_cases hm : "us-east-1" ∈ v.enabledRegions
      · simp [GlobalConfig.construct, validationErrors, h1, h2, hc, hm, exceptOk,
          List.contains]
      · simp [GlobalConfig.construct, validationErrors, h1, h2, hc, hm, exceptOk,
          List.contains, GlobalConfig.FILENAME]
  · simp [GlobalConfig.construct, validationErrors, h1, h2, exceptOk,
      List.contains]

/-- C2 witness: with commercial home region `eu-west-1` and enabled regions
`[eu-west-1]`, construction fails, and appending `us-east-1` to the enabled
regions makes it succeed. -/
theorem construct_commercial_us_east_1_rule_witness :
    euWestValues.homeRegion ≠ "us-gov-west-1" ∧
    euWestValues.homeRegion ≠ "us-gov-east-1" ∧
    ((exceptOk (GlobalConfig.construct usEastProps (some euWestValues)) = false ↔
      (euWestValues.homeRegion ≠ "us-east-1" ∧
        "us-east-1" ∉ euWestValues.enabledRegions)) ∧
    exceptOk (GlobalConfig.construct usEastProps
      (some { euWestValues with
        enabledRegions := euWestValues.enabledRegions ++ ["us-east-1"] })) = true) :=
  ⟨by decide, by decide,
    construct_commercial_us_east_1_rule usEastProps euWestValues (by decide) (by decide)⟩

/-- The config object produced by a successful construction from
`usEastProps` and `usEastValues`. -/
def usEastResult : GlobalConfig :=
  { homeRegion := "us-east-1",
    enabledRegions := ["us-east-1"],
    cloudwatchLogRetentionInDays := 90,
    logging :=
      { account := "LogArchive",
        cloudtrail := { enable := false, organizationTrail := false },
        sessionManager :=
          { sendToCloudWatchLogs := false, sendToS3 := false,
            excludeRegions := none, excludeAccounts := none } } }

/-- C4 counterexample: a successful construction whose parsed values carry
`enabledRegions = [us-east-1, us-west-2]`, yet the resulting object's
`enabledRegions` is `[us-east-1]` — the parsed field did not overwrite the
corresponding field of the result. -/
theorem construct_success_discards_parsed_enabled_regions :
    GlobalConfig.construct usEastProps (some usEastValues) = .ok usEastResult ∧
    usEastValues.enabledRegions = ["us-east-1", "us-west-2"] ∧
    usEastResult.enabledRegions = ["us-east-1"] :=
  ⟨by decide, by decide, by decide⟩

/-- C4 amended: for every successful construction with a parsed-values
object, every parsed field other than `homeRegion` and `enabledRegions`
overwrites the corresponding default of the result (nested objects replacing
the nested defaults wholesale, absent optional sections leaving the absent
defaults), while the result's `homeRegion` is the props construction
parameter and its `enabledRegions` is the one-element list holding it,
regardless of the parsed values. -/
theorem construct_shallow_overlay_fields (p : GlobalConfigProps)
    (v : GlobalConfigValues) (c : GlobalConfig)
    (h : GlobalConfig.construct p (some v) = .ok c) :
    c.homeRegion = p.homeRegion ∧ c.enabledRegions = [p.homeRegion] ∧
    c.managementAccountAccessRole = v.managementAccountAccessRole ∧
    c.cloudwatchLogRetentionInDays = v.cloudwatchLogRetentionInDays ∧
    c.controlTower = v.controlTower ∧ c.logging = v.logging ∧
    c.dataProtection = v.dataProtection ∧ c.reports = v.reports := by
  unfold GlobalConfig.construct at h
  by_cases hb : ((validationErrors (some v)).length != 0) = true
  · simp [hb] at h
  · simp [hb] at h
    subst h
    exact ⟨rfl, rfl, rfl, rfl, rfl, rfl, rfl, rfl⟩

/-- C4 amended witness: the overlay equations instantiated at the
`us-east-1` construction. -/
theorem construct_shallow_overlay_fields_witness :
    GlobalConfig.construct usEastProps (some usEastValues) = .ok usEastResult ∧
    (usEastResult.homeRegion = usEastProps.homeRegion ∧
     usEastResult.enabledRegions = [usEastProps.homeRegion] ∧
     usEastResult.managementAccountAccessRole = usEastValues.managementAccountAccessRole ∧
     usEastResult.cloudwatchLogRetentionInDays = usEastValues.cloudwatchLogRetentionInDays ∧
     usEastResult.controlTower = usEastValues.controlTower ∧
     usEastResult.logging = usEastValues.logging ∧
     usEastResult.dataProtection = usEastValues.dataProtection ∧
     usEastResult.reports = usEastValues.reports) :=
  ⟨by decide,
    construct_shallow_overlay_fields usEastProps usEastValues usEastResult (by decide)⟩

/-- C5: every successfully constructed config — directly, via `load`, or via
`loadFromString` — has `homeRegion` equal to the props construction
parameter and `enabledRegions` equal to the one-element list holding it; any
parsed enabled regions list is discarded from the resulting object. -/
theorem construct_enabled_regions_singleton :
    (∀ p v c, GlobalConfig.construct p v = .ok c →
      c.homeRegion = p.homeRegion ∧ c.enabledRegions = [p.homeRegion]) ∧
    (∀ file c, GlobalConfig.load file = .ok c →
      c.enabledRegions = [c.homeRegion]) ∧
    (∀ inp c, GlobalConfig.loadFromString inp = some c →
      c.enabledRegions = [c.homeRegion]) := by
  have hcon : ∀ p v c, GlobalConfig.construct p v = .ok c →
      c.homeRegion = p.homeRegion ∧ c.enabledRegions = [p.homeRegion] := by
    intro p v c h
    unfold GlobalConfig.construct at h
    by_cases hb : ((validationErrors v).length != 0) = true
    · simp [hb] at h
    · simp [hb] at h
      cases v with
      | none => subst h; exact ⟨rfl, rfl⟩
      | some v => subst h; exact ⟨rfl, rfl⟩
  refine ⟨hcon, ?_, ?_⟩
  · intro file c h
    cases file with
    | missing => simp [GlobalConfig.load, readFileSync] at h
    | content raw =>
      cases raw with
      | malformed => simp [GlobalConfig.load, readFileSync, yamlLoad] at h
      | parsed g =>
        simp only [GlobalConfig.load, readFileSync, yamlLoad] at h
        cases hp : parse g with
        | error e => rw [hp] at h; simp at h
        | ok v =>
          rw [hp] at h
          obtain ⟨h1, h2⟩ := hcon _ _ _ h
          rw [h2, h1]
  · intro inp c h
    unfold GlobalConfig.loadFromString at h
    cases hs : stringPipeline inp with
    | error e => rw [hs] at h; simp at h
    | ok c2 =>
      rw [hs] at h
      simp at h
      subst h
      unfold stringPipeline at hs
      cases inp with
      | malformed => simp [yamlLoad] at hs
      | parsed g =>
        simp only [yamlLoad] at hs
        cases hp : parse g with
        | error e => rw [hp] at hs; simp at hs
        | ok v =>
          rw [hp] at hs
          obtain ⟨h1, h2⟩ := hcon _ _ _ hs
          rw [h2, h1]

/-- C5 witness: the default-only construction for `us-gov-west-1` yields a
config whose enabled regions are exactly the singleton home region. -/
theorem construct_enabled_regions_singleton_witness :
    GlobalConfig.construct govWestProps none =
      .ok (defaultGlobalConfig "us-gov-west-1") ∧
    ((defaultGlobalConfig "us-gov-west-1").homeRegion = govWestProps.homeRegion ∧
     (defaultGlobalConfig "us-gov-west-1").enabledRegions = [govWestProps.homeRegion]) :=
  ⟨by decide,
    construct_enabled_regions_singleton.1 govWestProps none
      (defaultGlobalConfig "us-gov-west-1") (by decide)⟩

/-- C6: whenever the structural parse succeeds, `loadFromString` returns a
config in which every field other than `homeRegion` and `enabledRegions`
equals its documented default — the parsed values object is passed only as
the constructor's props argument, so the overlay and the semantic
validation never run on this path and `loadFromString` never fails with a
semantic violation. -/
theorem loadFromString_defaults_except_home_region (g : GenericValue)
    (v : GlobalConfigValues) (h : parse g = .ok v) :
    GlobalConfig.loadFromString (.parsed g) =
      some (defaultGlobalConfig v.homeRegion) := by
  simp [GlobalConfig.loadFromString, stringPipeline, yamlLoad, h,
    GlobalConfig.construct, validationErrors, defaultGlobalConfig]

/-- C6 witness: the `eu-west-1` content parses successfully and
`loadFromString` yields the default-only config for `eu-west-1`. -/
theorem loadFromString_defaults_except_home_region_witness :
    parse euWestContent = .ok euWestValues ∧
    GlobalConfig.loadFromString (.parsed euWestContent) =
      some (defaultGlobalConfig euWestValues.homeRegion) :=
  ⟨by decide,
    loadFromString_defaults_except_home_region euWestContent euWestValues (by decide)⟩

/-- C7: `loadFromString` never propagates an error — it returns exactly the
option view of its pipeline, yielding an absent result on a deserialization
failure or a structural violation — while the file-based `load` propagates
every failure kind to its caller: a missing file, a deserialization
failure, a structural violation (with the same error), and a constructor
(semantic) failure (with the same error). -/
theorem loader_error_contracts :
    (∀ inp, GlobalConfig.loadFromString inp = (stringPipeline inp).toOption) ∧
    GlobalConfig.loadFromString .malformed = none ∧
    (∀ g e, parse g = .error e → GlobalConfig.loadFromString (.parsed g) = none) ∧
    exceptOk (GlobalConfig.load .missing) = false ∧
    exceptOk (GlobalConfig.load (.content .malformed)) = false ∧
    (∀ g e, parse g = .error e →
      GlobalConfig.load (.content (.parsed g)) = .error e) ∧
    (∀ g v e, parse g = .ok v →
      GlobalConfig.construct { homeRegion := v.homeRegion } (some v) = .error e →
      GlobalConfig.load (.content (.parsed g)) = .error e) := by
  refine ⟨?_, by decide, ?_, by decide, by decide, ?_, ?_⟩
  · intro inp
    unfold GlobalConfig.loadFromString Except.toOption
    cases stringPipeline inp <;> rfl
  · intro g e h
    simp [GlobalConfig.loadFromString, stringPipeline, yamlLoad, h]
  · intro g e h
    simp [GlobalConfig.load, readFileSync, yamlLoad, h]
  · intro g v e h1 h2
    simp [GlobalConfig.load, readFileSync, yamlLoad, h1, h2]

/-- C7 witness: the `eu-west-1` content parses, its construction with the
values object throws the semantic violation, and `load` propagates exactly
that error. -/
theorem loader_error_contracts_witness :
    parse euWestContent = .ok euWestValues ∧
    GlobalConfig.construct { homeRegion := euWestValues.homeRegion }
      (some euWestValues) =
      .error "global-config.yaml has 1 issues: The region us-east-1 must be included in the list of enabled regions" ∧
    GlobalConfig.load (.content (.parsed euWestContent)) =
      .error "global-config.yaml has 1 issues: The region us-east-1 must be included in the list of enabled regions" :=
  ⟨by decide, by decide,
    loader_error_contracts.2.2.2.2.2.2 euWestContent euWestValues _
      (by decide) (by decide)⟩
